import Mathlib

/-!
Verification development for the Shiprocket fulfillment plugin.

Shallow embedding of the carrier-integration core: tracking status
normalization (admin sync route and webhook route), the tracking upsert
service, courier selection and the bounded delivery-estimate cache in the
client manager, the shipment-creation item loop, idempotent cancellation,
the token-refresh coalescing discipline, and the public tracking route
ownership gate.

JavaScript numbers that the code treats exactly (weights, dimensions,
rates) are modelled as rationals; machine timestamps as naturals
(milliseconds).  A JavaScript value that can be either a string or a
number in a status field is modelled by the inductive type `SVal`.
-/

unseal Rat.mul Rat.inv Rat.add

namespace Shiprocket

/-- A JavaScript value appearing in a status field: either a string or a
number.  `Option SVal` models a possibly absent (undefined / null) field. -/
inductive SVal where
  | str (s : String)
  | num (n : Int)
deriving DecidableEq, Repr

/-- JavaScript truthiness of a status value: the empty string and the
number 0 are falsy, everything else is truthy. -/
def SVal.truthy : SVal → Bool
  | .str s => s ≠ ""
  | .num n => n ≠ 0

/-- Truthiness of a possibly absent value (undefined is falsy). -/
def jsTruthy : Option SVal → Bool
  | none => false
  | some v => v.truthy

/-- Property access coerces the key to a string: `statusMap[7]` and
`statusMap["7"]` read the same property. -/
def SVal.jsKey : SVal → String
  | .str s => s
  | .num n => toString n

/-- The fixed Shiprocket status code to label table from the admin
tracking-sync route (part_000, lines 61 to 73). -/
def statusMapLookup (k : String) : Option String :=
  if k = "1" then some "AWB Assigned"
  else if k = "6" then some "Shipped"
  else if k = "7" then some "Delivered"
  else if k = "8" then some "Cancelled"
  else if k = "9" then some "RTO Initiated"
  else if k = "13" then some "Pickup Error"
  else if k = "17" then some "In Transit"
  else if k = "18" then some "In Transit"
  else if k = "19" then some "RTO In Transit"
  else if k = "20" then some "RTO In Transit"
  else if k = "21" then some "Reached Destination"
  else none

/-- The numeric codes that the table covers. -/
def statusCodes : List Int := [1, 6, 7, 8, 9, 13, 17, 18, 19, 20, 21]

/-- Relevant status fields of the tracking data object returned by the
carrier on the pull path (part_000, lines 55 to 91). -/
structure PullTrackingData where
  current_status : Option SVal
  track_status : Option SVal
  shipment_status : Option SVal
deriving DecidableEq, Repr

/-- JavaScript `a || b` on two possibly absent status values with a final
string default, as in
`trackingData.current_status || trackingData.track_status || "Unknown"`. -/
def jsOrStatus (a b : Option SVal) (d : String) : SVal :=
  if jsTruthy a then a.getD (.str d)
  else if jsTruthy b then b.getD (.str d)
  else .str d

/-- Pull-path normalization of the current status (part_000, lines 58 and
77 to 82): take the first truthy of `current_status`, `track_status`,
`"Unknown"`; if the status map has an entry for it, replace it with the
label; otherwise, if it is a number, stringify it. -/
def pullCurrentStatus (td : PullTrackingData) : SVal :=
  let status := jsOrStatus td.current_status td.track_status "Unknown"
  match statusMapLookup status.jsKey with
  | some label => .str label
  | none =>
    match status with
    | .num n => .str (toString n)
    | v => v

/-- Pull-path normalization of the shipment status (part_000, lines 75 and
84 to 88): `shipment_status || null`, then the same mapping guarded by
truthiness. -/
def pullShipmentStatus (td : PullTrackingData) : Option SVal :=
  let ss : Option SVal := if jsTruthy td.shipment_status then td.shipment_status else none
  match ss with
  | none => none
  | some v =>
    if v.truthy then
      match statusMapLookup v.jsKey with
      | some label => some (.str label)
      | none =>
        match v with
        | .num n => some (.str (toString n))
        | w => some w
    else
      match v with
      | .num n => some (.str (toString n))
      | w => some w

/-- The status-relevant part of an inbound webhook payload (push path,
route.ts lines 28 to 46).  The interface declares strings but nothing
validates the runtime shape, so the fields are modelled as `SVal`. -/
structure WebhookPayload where
  awb : String
  current_status : SVal
  shipment_status : Option SVal
deriving DecidableEq, Repr

/-- The label the table assigns to a numeric code. -/
def statusLabel (c : Int) : String :=
  (statusMapLookup (toString c)).getD ""

/-- The value the webhook route supplies as `current_status` to the upsert
(route.ts, line 133): the payload field, unchanged.  No status map is
applied on the push path. -/
def pushCurrentStatus (p : WebhookPayload) : SVal :=
  p.current_status

/-- The value the webhook route supplies as `shipment_status` to the
upsert (route.ts, line 135): the payload field, unchanged. -/
def pushShipmentStatus (p : WebhookPayload) : Option SVal :=
  p.shipment_status

example : pullCurrentStatus ⟨some (.num 7), none, none⟩ = .str "Delivered" := by decide
example : pullCurrentStatus ⟨some (.str "7"), none, none⟩ = .str "Delivered" := by decide
example : pullCurrentStatus ⟨none, none, none⟩ = .str "Unknown" := by decide
example : pullShipmentStatus ⟨none, none, some (.num 21)⟩ = some (.str "Reached Destination") := by decide
example : pushCurrentStatus ⟨"A", .num 7, none⟩ = .num 7 := by decide

/-! ## Tracking upsert service (part_002, `upsertByAwb`) -/

/-- A scan event of the tracking history. -/
structure Scan where
  date : String
  status : String
  activity : String
  location : String
deriving DecidableEq, Repr

/-- The argument record of `upsertByAwb` (part_002, lines 15 to 36).
`none` models a field that is absent / `undefined` in the incoming
update; `awb` and `current_status` are required by the signature. -/
structure UpsertData where
  awb : String
  order_id : Option String := none
  medusa_order_id : Option String := none
  sr_order_id : Option Int := none
  medusa_fulfillment_id : Option String := none
  courier_name : Option String := none
  current_status : SVal
  current_status_id : Option Int := none
  shipment_status : Option SVal := none
  shipment_status_id : Option Int := none
  current_timestamp : Option Nat := none
  etd : Option Nat := none
  awb_assigned_date : Option Nat := none
  pickup_scheduled_date : Option Nat := none
  scans : Option (List Scan) := none
  pod_status : Option String := none
  pod : Option String := none
  is_return : Option Bool := none
  channel_id : Option Int := none
  raw_payload : Option String := none
deriving DecidableEq, Repr

/-- A stored ShiprocketTracking row (part_001).  Fields mirror the model
definition; nullable columns are options. -/
structure TrackingRecord where
  id : Nat
  awb : String
  order_id : Option String := none
  medusa_order_id : Option String := none
  sr_order_id : Option Int := none
  medusa_fulfillment_id : Option String := none
  courier_name : Option String := none
  current_status : SVal
  current_status_id : Option Int := none
  shipment_status : Option SVal := none
  shipment_status_id : Option Int := none
  current_timestamp : Option Nat := none
  etd : Option Nat := none
  awb_assigned_date : Option Nat := none
  pickup_scheduled_date : Option Nat := none
  scans : Option (List Scan) := none
  pod_status : Option String := none
  pod : Option String := none
  is_return : Option Bool := none
  channel_id : Option Int := none
  raw_payload : Option String := none
deriving DecidableEq, Repr

/-- Creation of a new record from the full supplied data (part_002, line
69: `createShiprocketTrackings(data)`). -/
def createRecord (id : Nat) (d : UpsertData) : TrackingRecord :=
  { id := id
    awb := d.awb
    order_id := d.order_id
    medusa_order_id := d.medusa_order_id
    sr_order_id := d.sr_order_id
    medusa_fulfillment_id := d.medusa_fulfillment_id
    courier_name := d.courier_name
    current_status := d.current_status
    current_status_id := d.current_status_id
    shipment_status := d.shipment_status
    shipment_status_id := d.shipment_status_id
    current_timestamp := d.current_timestamp
    etd := d.etd
    awb_assigned_date := d.awb_assigned_date
    pickup_scheduled_date := d.pickup_scheduled_date
    scans := d.scans
    pod_status := d.pod_status
    pod := d.pod
    is_return := d.is_return
    channel_id := d.channel_id
    raw_payload := d.raw_payload }

/-- Update of an existing record (part_002, lines 44 to 66): only the
fields listed in `updateData` are touched, and among those an
`undefined` field is deleted before the update, so it keeps the stored
value.  Fields outside the list (order ids, courier name, return flag,
channel id, fulfillment id) are never changed on update. -/
def updateRecord (r : TrackingRecord) (d : UpsertData) : TrackingRecord :=
  { r with
    current_status := d.current_status
    current_status_id := d.current_status_id.orElse (fun _ => r.current_status_id)
    shipment_status := d.shipment_status.orElse (fun _ => r.shipment_status)
    shipment_status_id := d.shipment_status_id.orElse (fun _ => r.shipment_status_id)
    current_timestamp := d.current_timestamp.orElse (fun _ => r.current_timestamp)
    etd := d.etd.orElse (fun _ => r.etd)
    awb_assigned_date := d.awb_assigned_date.orElse (fun _ => r.awb_assigned_date)
    pickup_scheduled_date := d.pickup_scheduled_date.orElse (fun _ => r.pickup_scheduled_date)
    scans := d.scans.orElse (fun _ => r.scans)
    pod_status := d.pod_status.orElse (fun _ => r.pod_status)
    pod := d.pod.orElse (fun _ => r.pod)
    raw_payload := d.raw_payload.orElse (fun _ => r.raw_payload) }

/-- The upsert argument the webhook route builds for the status fields
(route.ts, lines 127 to 147): both status values are passed exactly as
they arrived in the payload. -/
def webhookUpsertData (p : WebhookPayload) : UpsertData :=
  { awb := p.awb
    current_status := pushCurrentStatus p
    shipment_status := pushShipmentStatus p }

/-- The tracking store: rows in insertion order.  `upsertByAwb` looks up
the first row with the given awb (part_002, lines 38 to 42), updates it
if present, otherwise appends a freshly created row.  Returns the
resulting record together with the new store. -/
def upsertByAwb (store : List TrackingRecord) (d : UpsertData) :
    TrackingRecord × List TrackingRecord :=
  match store.find? (fun r => r.awb == d.awb) with
  | some r =>
    let r2 := updateRecord r d
    (r2, store.map (fun x => if x.id == r.id then r2 else x))
  | none =>
    let r := createRecord (store.length + 1) d
    (r, store ++ [r])

/-! ## Client manager: courier selection and the delivery-estimate cache
(manager.ts, `getDeliveryEstimate`) -/

/-- A serviceable courier as returned by the carrier serviceability
call.  `estimated_delivery_days` arrives as a string. -/
structure Courier where
  courier_name : String
  courier_company_id : Int
  etd : String
  estimated_delivery_days : String
  rate : Rat
  is_surface : Bool
deriving DecidableEq, Repr

/-- Delivery preference (manager.ts, line 17). -/
inductive DeliveryPreference where
  | FAST
  | CHEAP
deriving DecidableEq, Repr

/-- JavaScript `parseInt` on a string: skip leading whitespace, optional
sign, longest leading digit run; `none` models `NaN`. -/
def parseIntJS (s : String) : Option Int :=
  let t := s.toList.dropWhile Char.isWhitespace
  let signAndRest : Int × List Char :=
    match t with
    | '-' :: r => (-1, r)
    | '+' :: r => (1, r)
    | r => (1, r)
  let digits := signAndRest.2.takeWhile Char.isDigit
  if digits.isEmpty then none
  else some (signAndRest.1 * (digits.foldl (fun a c => a * 10 + (c.toNat - 48)) 0 : Nat))

/-- The FAST sort key (manager.ts, line 393):
`parseInt(c.estimated_delivery_days) || 99` — an unparsable value and the
value 0 both become the sentinel 99. -/
def fastKey (c : Courier) : Int :=
  match parseIntJS c.estimated_delivery_days with
  | none => 99
  | some 0 => 99
  | some n => n

/-- Stable insertion into a list sorted by `key` in ascending order: the
new element goes before the first element with a greater-or-equal key,
which preserves input order among equal keys. -/
def insertSorted {α : Type} {κ : Type} [LinearOrder κ] (key : α → κ) (x : α) :
    List α → List α
  | [] => [x]
  | y :: ys => if key x ≤ key y then x :: y :: ys else y :: insertSorted key x ys

/-- Stable ascending sort by `key`, modelling the JavaScript
`[...couriers].sort((a, b) => keyA - keyB)` (Array.prototype.sort is
stable). -/
def sortByKey {α : Type} {κ : Type} [LinearOrder κ] (key : α → κ) : List α → List α
  | [] => []
  | x :: xs => insertSorted key x (sortByKey key xs)

/-- First element of the list attaining the minimal key (ties resolve to
the earliest element). -/
def firstMinBy {α : Type} {κ : Type} [LinearOrder κ] (key : α → κ) : List α → Option α
  | [] => none
  | x :: xs =>
    match firstMinBy key xs with
    | none => some x
    | some y => if key y < key x then some y else some x

/-- Courier selection (manager.ts, lines 386 to 395): sort a copy of the
list by rate (CHEAP) or by the FAST key and take the first element. -/
def selectCourier (pref : DeliveryPreference) (cs : List Courier) : Option Courier :=
  match pref with
  | .CHEAP => (sortByKey (fun c => c.rate) cs).head?
  | .FAST => (sortByKey fastKey cs).head?

/-- The result record of `getDeliveryEstimate` (manager.ts, lines 323 to
333 and 397 to 407). -/
structure EstResult where
  serviceable : Bool
  preference : DeliveryPreference
  courier_name : Option String
  courier_company_id : Option Int
  etd : Option String
  estimated_delivery_days : Option Int
  rate : Option Rat
  is_surface : Option Bool
  courier_count : Nat
deriving DecidableEq, Repr

/-- The not-serviceable result (manager.ts, lines 367 to 377). -/
def emptyEstResult (pref : DeliveryPreference) : EstResult :=
  { serviceable := false
    preference := pref
    courier_name := none
    courier_company_id := none
    etd := none
    estimated_delivery_days := none
    rate := none
    is_surface := none
    courier_count := 0 }

/-- The result built from the selected courier (manager.ts, lines 397 to
407); `parseInt(...) || null` maps both NaN and 0 to null. -/
def courierEstResult (pref : DeliveryPreference) (sel : Courier) (count : Nat) : EstResult :=
  { serviceable := true
    preference := pref
    courier_name := some sel.courier_name
    courier_company_id := some sel.courier_company_id
    etd := some sel.etd
    estimated_delivery_days :=
      match parseIntJS sel.estimated_delivery_days with
      | none => none
      | some 0 => none
      | some n => some n
    rate := some sel.rate
    is_surface := some sel.is_surface
    courier_count := count }

/-- A cache key: the defaulted 4-tuple (pickup postcode, delivery
postcode, weight, COD flag).  The code joins these with dashes into a
string (manager.ts, line 338); the tuple is the same identification. -/
abbrev CacheKey := String × String × Rat × Nat

/-- A cache entry (manager.ts, lines 12 to 15). -/
structure CacheEntry where
  response : EstResult
  expiresAt : Nat
deriving DecidableEq, Repr

/-- Cache TTL in milliseconds: 4 hours (manager.ts, line 41). -/
def cacheTTL : Nat := 4 * 60 * 60 * 1000

/-- Cache capacity (manager.ts, line 62). -/
def maxCacheSize : Nat := 1000

/-- The delivery-estimate cache: a JavaScript `Map` modelled as key-value
pairs in insertion order, keys unique. -/
structure EstState where
  cache : List (CacheKey × CacheEntry)
deriving DecidableEq, Repr

/-- Lookup of the entry stored for a key. -/
def lookupCache (cache : List (CacheKey × CacheEntry)) (k : CacheKey) : Option CacheEntry :=
  (cache.find? (fun p => p.1 == k)).map Prod.snd

/-- JavaScript `Map.set`: replace in place when the key is present,
otherwise append (insertion order is kept on replacement). -/
def setCache (cache : List (CacheKey × CacheEntry)) (k : CacheKey) (v : CacheEntry) :
    List (CacheKey × CacheEntry) :=
  if (cache.find? (fun p => p.1 == k)).isSome then
    cache.map (fun p => if p.1 == k then (k, v) else p)
  else
    cache ++ [(k, v)]

/-- The eviction step run at the top of every `getDeliveryEstimate` call
(manager.ts, lines 341 to 346): when the map holds `maxCacheSize` or more
entries, the first (oldest-inserted) key is deleted — before the lookup. -/
def evictIfFull (cache : List (CacheKey × CacheEntry)) : List (CacheKey × CacheEntry) :=
  if maxCacheSize ≤ cache.length then cache.drop 1 else cache

/-- Weight defaulting (manager.ts, line 336): `data.weight || 0.5` — an
absent weight and a weight of 0 both become 0.5. -/
def defaultWeight (w : Option Rat) : Rat :=
  match w with
  | none => 0.5
  | some x => if x = 0 then 0.5 else x

/-- COD defaulting (manager.ts, line 337): `data.cod || 0`. -/
def defaultCod (c : Option Nat) : Nat :=
  match c with
  | none => 0
  | some x => x

/-- Request parameters of `getDeliveryEstimate` (manager.ts, lines 318
to 322). -/
structure EstRequest where
  pickup_postcode : String
  delivery_postcode : String
  weight : Option Rat
  cod : Option Nat
deriving DecidableEq, Repr

/-- The cache key formed from a request after defaulting. -/
def requestKey (req : EstRequest) : CacheKey :=
  (req.pickup_postcode, req.delivery_postcode, defaultWeight req.weight, defaultCod req.cod)

/-- One `getDeliveryEstimate` call (manager.ts, lines 318 to 425).  The
serviceability network call is abstracted as the oracle `net`; `now` is
the clock in milliseconds.  Returns the result, the next cache state and
whether a network call was issued. -/
def getDeliveryEstimate (pref : DeliveryPreference) (net : CacheKey → List Courier)
    (now : Nat) (st : EstState) (req : EstRequest) : EstResult × EstState × Bool :=
  let k := requestKey req
  let cache1 := evictIfFull st.cache
  match lookupCache cache1 k with
  | some e =>
    if now < e.expiresAt then
      (e.response, ⟨cache1⟩, false)
    else
      getDeliveryEstimateNet pref net now cache1 k
  | none => getDeliveryEstimateNet pref net now cache1 k
where
  /-- The network branch: call the carrier, build the result (empty list
  means not serviceable), cache it with a fresh TTL. -/
  getDeliveryEstimateNet (pref : DeliveryPreference) (net : CacheKey → List Courier)
      (now : Nat) (cache1 : List (CacheKey × CacheEntry)) (k : CacheKey) :
      EstResult × EstState × Bool :=
    let couriers := net k
    let result :=
      match selectCourier pref couriers with
      | none => emptyEstResult pref
      | some sel => courierEstResult pref sel couriers.length
    (result, ⟨setCache cache1 k ⟨result, now + cacheTTL⟩⟩, true)

/-! ## Shipment creation pipeline (client/index.ts, `create`) -/

/-- Physical data of a product used as dimension fallback. -/
structure Product where
  weight : Option Rat := none
  length : Option Rat := none
  width : Option Rat := none
  height : Option Rat := none
deriving DecidableEq, Repr

/-- A product variant, carrying the preferred physical data. -/
structure Variant where
  weight : Option Rat := none
  length : Option Rat := none
  width : Option Rat := none
  height : Option Rat := none
  product : Option Product := none
deriving DecidableEq, Repr

/-- An order line item, found through the fulfillment item id. -/
structure OrderItem where
  id : String
  variant : Option Variant := none
deriving DecidableEq, Repr

/-- A fulfillment item passed to `create`. -/
structure FulItem where
  line_item_id : String
  title : String
  quantity : Option Nat := none
  raw_quantity_value : Option Nat := none
deriving DecidableEq, Repr

/-- JavaScript `a || b` on an optional number with a numeric fallback:
an absent value and the value 0 both fall through. -/
def jsOrNum (a : Option Rat) (b : Rat) : Rat :=
  match a with
  | none => b
  | some x => if x = 0 then b else x

/-- The item quantity (index.ts, line 228):
`Number(item.quantity || item.raw_quantity?.value || 1)`. -/
def jsQty (it : FulItem) : Nat :=
  match it.quantity with
  | some q => if q = 0 then (match it.raw_quantity_value with
      | some r => if r = 0 then 1 else r
      | none => 1) else q
  | none =>
    match it.raw_quantity_value with
    | some r => if r = 0 then 1 else r
    | none => 1

/-- Order items indexed by id (index.ts, lines 173 to 178): `forEach`
over a `Map` means the last entry with a given id wins. -/
def lookupOrderItem (oitems : List OrderItem) (lid : String) : Option OrderItem :=
  oitems.reverse.find? (fun oi => oi.id == lid)

/-- Resolved weight of an item in grams (index.ts, line 213):
`Number(variant.weight || product?.weight || 0)`. -/
def variantWeightGrams (v : Variant) : Rat :=
  jsOrNum v.weight (jsOrNum (v.product.bind Product.weight) 0)

/-- Resolved length in centimeters (index.ts, line 216). -/
def variantLength (v : Variant) : Rat :=
  jsOrNum v.length (jsOrNum (v.product.bind Product.length) 0)

/-- Resolved breadth in centimeters (index.ts, line 217): the variant
width, falling back to the product width. -/
def variantBreadth (v : Variant) : Rat :=
  jsOrNum v.width (jsOrNum (v.product.bind Product.width) 0)

/-- Resolved height in centimeters (index.ts, line 218). -/
def variantHeight (v : Variant) : Rat :=
  jsOrNum v.height (jsOrNum (v.product.bind Product.height) 0)

/-- Running totals of the item loop (index.ts, lines 180 to 183). -/
structure Agg where
  weight : Rat
  length : Rat
  breadth : Rat
  height : Rat
deriving DecidableEq, Repr

/-- One iteration of the item loop (index.ts, lines 192 to 233): resolve
the order line, require variant data, resolve dimensions with the product
fallback, reject any zero value, then accumulate. -/
def processItem (oitems : List OrderItem) (agg : Agg) (it : FulItem) :
    Except String Agg :=
  match lookupOrderItem oitems it.line_item_id with
  | none => .error ("Order item not found for fulfillment item: " ++ it.title)
  | some oi =>
    match oi.variant with
    | none => .error ("Variant data missing for item: " ++ it.title)
    | some v =>
      let weight := variantWeightGrams v / 1000
      let length := variantLength v
      let breadth := variantBreadth v
      let height := variantHeight v
      if weight = 0 ∨ length = 0 ∨ breadth = 0 ∨ height = 0 then
        .error ("Missing dimensions/weight for \x22" ++ it.title ++
          "\x22. Please set them on the Variant.")
      else
        let q : Rat := (jsQty it : Nat)
        .ok { weight := agg.weight + weight * q
              length := max agg.length length
              breadth := max agg.breadth breadth
              height := agg.height + height * q }

/-- The item loop run over the whole fulfillment item list. -/
def aggregateItems (oitems : List OrderItem) (agg : Agg) :
    List FulItem → Except String Agg
  | [] => .ok agg
  | it :: rest =>
    match processItem oitems agg it with
    | .error e => .error e
    | .ok agg2 => aggregateItems oitems agg2 rest

/-- The physical block of the built carrier order payload (index.ts,
lines 290 to 293): the loop totals, copied field by field. -/
structure PayloadDims where
  length : Rat
  breadth : Rat
  height : Rat
  weight : Rat
deriving DecidableEq, Repr

/-- The `create` call up to and including its first outbound network
request.  The item loop (lines 192 to 233) runs first; the address block
of the payload (lines 244 to 265, abstracted here as the pre-resolved
check `addrCheck`) is also built before any request; the first network
call, `POST /orders/create/adhoc` (line 297), is issued only after both
succeed.  The second component counts outbound network calls made. -/
def createRun (oitems : List OrderItem) (items : List FulItem)
    (addrCheck : Except String Unit) : Except String PayloadDims × Nat :=
  match aggregateItems oitems ⟨0, 0, 0, 0⟩ items with
  | .error e => (.error e, 0)
  | .ok agg =>
    match addrCheck with
    | .error e => (.error e, 0)
    | .ok _ => (.ok ⟨agg.length, agg.breadth, agg.height, agg.weight⟩, 1)

/-- An item is rejected by the loop when it has no matching order line,
no variant data, or a zero resolved weight or dimension. -/
def badItem (oitems : List OrderItem) (it : FulItem) : Bool :=
  match lookupOrderItem oitems it.line_item_id with
  | none => true
  | some oi =>
    match oi.variant with
    | none => true
    | some v =>
      decide (variantWeightGrams v / 1000 = 0) || decide (variantLength v = 0) ||
        decide (variantBreadth v = 0) || decide (variantHeight v = 0)

/-! ## Cancellation (client/index.ts, `cancel`) and the error translator -/

/-- The typed error taxonomy of MedusaError as used by the translator. -/
inductive MedErrType where
  | UNAUTHORIZED
  | NOT_FOUND
  | NOT_ALLOWED
  | INVALID_DATA
  | UNEXPECTED_STATE
deriving DecidableEq, Repr

/-- A carrier rejection: the HTTP status of the response together with
the serialized response data (`JSON.stringify(error.response.data)`). -/
structure CancelRejection where
  status : Nat
  body : String
deriving DecidableEq, Repr

/-- Prefix test on character lists. -/
def charsPrefixOf : List Char → List Char → Bool
  | [], _ => true
  | _ :: _, [] => false
  | a :: as, b :: bs => a == b && charsPrefixOf as bs

/-- Infix test on character lists. -/
def charsInfixOf (needle : List Char) : List Char → Bool
  | [] => charsPrefixOf needle []
  | b :: bs => charsPrefixOf needle (b :: bs) || charsInfixOf needle bs

/-- Substring test over strings, used for the message checks. -/
def strContains (hay needle : String) : Bool :=
  charsInfixOf needle.toList hay.toList

/-- JavaScript `toLowerCase()` on the ASCII range. -/
def strToLower (s : String) : String :=
  String.mk (s.toList.map Char.toLower)

/-- The error translator (handle-error.ts, lines 53 to 115), restricted
to the status-code dispatch: every branch throws a typed MedusaError. -/
def handleErrorType (status : Nat) : MedErrType :=
  if status = 401 then .UNAUTHORIZED
  else if status = 404 then .NOT_FOUND
  else if status = 429 then .NOT_ALLOWED
  else if status = 400 ∨ status = 422 ∨ status = 405 then .INVALID_DATA
  else .UNEXPECTED_STATE

/-- Outcome of one `cancel` call: a silent return or a thrown typed
MedusaError. -/
inductive CancelResult where
  | success
  | failure (e : MedErrType)
deriving DecidableEq, Repr

/-- One `cancel(orderId)` call (index.ts, lines 371 to 386), given the
carrier outcome: `none` is an HTTP success; a rejection is inspected —
the lowercased serialized body is searched for "already cancelled" or
"already canceled" (any status), or for "cannot cancel" with status
exactly 400 (the `&&` binds tighter than the `||` chain); matches return
as idempotent success, everything else goes to the error translator. -/
def cancel (outcome : Option CancelRejection) : CancelResult :=
  match outcome with
  | none => .success
  | some e =>
    let msg := strToLower e.body
    if strContains msg "already cancelled" || strContains msg "already canceled" ||
        (e.status == 400 && strContains msg "cannot cancel") then
      .success
    else
      .failure (handleErrorType e.status)

/-! ## Token refresh coalescing (manager.ts, lines 201 to 233)

The runtime is a single-threaded event loop: code between two `await`
points runs atomically.  In `ensureToken` and `refreshToken` the check of
`tokenRefreshPromise` and its assignment happen inside one such
synchronous segment, so a refresh can only start when no handle is
present, and the handle is cleared (in the `finally`) only after the
login exchange has settled.  The system below has one transition per
synchronous segment that touches the shared state; any number of callers
may take steps in any interleaving. -/

/-- The lifecycle of the shared refresh operation referenced by
`tokenRefreshPromise`: the login call is in flight, or has settled but
the `finally` has not yet cleared the slot. -/
inductive RefreshHandle where
  | running
  | settled
deriving DecidableEq, Repr

/-- The shared mutable state of the manager relevant to coalescing. -/
structure TokenSys where
  handle : Option RefreshHandle
  loginInFlight : Nat
deriving DecidableEq, Repr

/-- The initial manager state: no cached refresh operation. -/
def TokenSys.init : TokenSys := ⟨none, 0⟩

/-- Atomic transitions of the coalescing discipline.

`start`: a caller in `ensureToken` / `refreshToken` / `forceRefreshToken`
observes `tokenRefreshPromise === null`, stores a new promise and issues
the login request (lines 207 to 212 and 221 to 226 plus the request send
of `doRefreshToken`).

`settle`: the login network exchange completes (success or failure),
resolving the shared promise.

`clear`: the `finally` of `refreshToken` (line 231) resets
`tokenRefreshPromise` to null after the operation has settled.

`observe`: a caller that finds a handle in place awaits that same
promise; the shared state is untouched — this is the only transition
available to a caller while a handle exists. -/
inductive TokenStep : TokenSys → TokenSys → Prop where
  | start (s : TokenSys) (h : s.handle = none) :
      TokenStep s ⟨some .running, s.loginInFlight + 1⟩
  | settle (s : TokenSys) (h : s.handle = some .running) :
      TokenStep s ⟨some .settled, s.loginInFlight - 1⟩
  | clear (s : TokenSys) (h : s.handle = some .settled) :
      TokenStep s ⟨none, s.loginInFlight⟩
  | observe (s : TokenSys) (h : s.handle ≠ none) : TokenStep s s

/-- States reachable from the initial manager state. -/
def TokenReachable (s : TokenSys) : Prop :=
  Relation.ReflTransGen TokenStep TokenSys.init s

/-- The exact coalescing invariant: a login call is in flight precisely
while the stored refresh operation is in its running phase. -/
def tokenInv (s : TokenSys) : Prop :=
  s.loginInFlight = (if s.handle = some RefreshHandle.running then 1 else 0)

/-! ## Public tracking route ownership gate
(api/store/shiprocket/tracking/[awb]/route.ts, GET) -/

/-- Outcome of the ownership lookup `orderModule.retrieveOrder`: either
the order row (only its customer id matters) or a thrown error with its
message. -/
inductive VerifyOutcome where
  | result (customer_id : Option String)
  | failed (msg : String)
deriving DecidableEq, Repr

/-- The response of the public tracking GET, reduced to the cases the
gate distinguishes. -/
inductive TrackResponse where
  | notFound
  | denied
  | payload (t : TrackingRecord)
deriving DecidableEq, Repr

/-- The GET handler after the awb parsing (route.ts, lines 31 to 95):
404 when no record exists; when the record is linked to an order, run
the ownership check — a confirmed foreign customer denies (403), a
verification error denies unless its message contains "not found", in
which case the handler falls through and returns the tracking data. -/
def trackingGET (found : Option TrackingRecord) (verify : String → VerifyOutcome)
    (actorId : Option String) : TrackResponse :=
  match found with
  | none => .notFound
  | some t =>
    match t.medusa_order_id with
    | none => .payload t
    | some oid =>
      match verify oid with
      | .result customerId =>
        match customerId with
        | none => .payload t
        | some c => if actorId = some c then .payload t else .denied
      | .failed msg =>
        if strContains (strToLower msg) "not found" then .payload t else .denied

/-! ## Auxiliary definitions used by the claim statements -/

/-- Merge behavior of one optional field in an update: an absent value
keeps the stored one, a supplied value overwrites it. -/
def mergesTo {α : Type} (dv rv uv : Option α) : Prop :=
  (dv = none → uv = rv) ∧ ∀ v, dv = some v → uv = some v

/-- A courier with the given name, id, estimated-delivery-days string and
rate (other fields fixed), for concrete instances. -/
def mkCourier (name : String) (i : Int) (edd : String) (r : Rat) : Courier :=
  { courier_name := name
    courier_company_id := i
    etd := ""
    estimated_delivery_days := edd
    rate := r
    is_surface := false }

/-- The spec example for the cheapest preference: rates 50, 30, 40. -/
def cheapCouriers : List Courier :=
  [mkCourier "A" 1 "3" 50, mkCourier "B" 2 "3" 30, mkCourier "C" 3 "3" 40]

/-- The spec example for the fastest preference: delivery days 3, 1, 2. -/
def fastCouriers : List Courier :=
  [mkCourier "A" 1 "3" 10, mkCourier "B" 2 "1" 10, mkCourier "C" 3 "2" 10]

/-- A parsable 100-day courier followed by an unparsable one. -/
def unparsableCouriers : List Courier :=
  [mkCourier "A" 1 "100" 10, mkCourier "B" 2 "unknown" 10]

/-- A cache key with a fixed pickup postcode and weight, varying in the
delivery postcode slot. -/
def fullKey (d : String) : CacheKey :=
  ("110001", d, 1, 0)

/-- A cache entry that expires at time 1000000. -/
def fullEntry : CacheEntry :=
  ⟨emptyEstResult .FAST, 1000000⟩

/-- A cache filled to exactly `maxCacheSize` entries whose oldest-inserted
key is `fullKey "1"`. -/
def fullCache : List (CacheKey × CacheEntry) :=
  (fullKey "1", fullEntry) ::
    (List.range (maxCacheSize - 1)).map (fun i => (fullKey (Nat.repr (i + 2)), fullEntry))

/-- The request addressing `fullKey "1"`. -/
def fullReq : EstRequest :=
  ⟨"110001", "1", some 1, some 0⟩

/-- The message the item loop raises for a rejected item: each branch
names the item by title. -/
def itemErrorMsg (oitems : List OrderItem) (it : FulItem) : String :=
  match lookupOrderItem oitems it.line_item_id with
  | none => "Order item not found for fulfillment item: " ++ it.title
  | some oi =>
    match oi.variant with
    | none => "Variant data missing for item: " ++ it.title
    | some _ =>
      "Missing dimensions/weight for \x22" ++ it.title ++
        "\x22. Please set them on the Variant."

/-- Resolved weight of a fulfillment item in kilograms (0 when the order
line or variant is missing; the loop rejects those items anyway). -/
def itemKg (oitems : List OrderItem) (it : FulItem) : Rat :=
  match lookupOrderItem oitems it.line_item_id with
  | some oi =>
    match oi.variant with
    | some v => variantWeightGrams v / 1000
    | none => 0
  | none => 0

/-- Resolved length of a fulfillment item. -/
def itemLen (oitems : List OrderItem) (it : FulItem) : Rat :=
  match lookupOrderItem oitems it.line_item_id with
  | some oi =>
    match oi.variant with
    | some v => variantLength v
    | none => 0
  | none => 0

/-- Resolved breadth (source width) of a fulfillment item. -/
def itemBre (oitems : List OrderItem) (it : FulItem) : Rat :=
  match lookupOrderItem oitems it.line_item_id with
  | some oi =>
    match oi.variant with
    | some v => variantBreadth v
    | none => 0
  | none => 0

/-- Resolved height of a fulfillment item. -/
def itemHt (oitems : List OrderItem) (it : FulItem) : Rat :=
  match lookupOrderItem oitems it.line_item_id with
  | some oi =>
    match oi.variant with
    | some v => variantHeight v
    | none => 0
  | none => 0

/-- A variant with the given weight in grams, length, width and height. -/
def mkVariant (w l wd h : Option Rat) : Variant :=
  { weight := w, length := l, width := wd, height := h }

/-- Example order lines: 200g and 300g items with full dimensions. -/
def oitemsEx : List OrderItem :=
  [ { id := "li1", variant := some (mkVariant (some 200) (some 10) (some 8) (some 4)) },
    { id := "li2", variant := some (mkVariant (some 300) (some 20) (some 5) (some 3)) } ]

/-- Example fulfillment items: quantities 1 and 2. -/
def itemsEx : List FulItem :=
  [ { line_item_id := "li1", title := "Item One", quantity := some 1 },
    { line_item_id := "li2", title := "Item Two", quantity := some 2 } ]

/-- An order line whose variant has weight, length and width but no
height. -/
def oitemsBadEx : List OrderItem :=
  [ { id := "li1", variant := some (mkVariant (some 200) (some 10) (some 8) none) } ]

/-- The fulfillment item referencing the height-less order line. -/
def itemsBadEx : List FulItem :=
  [ { line_item_id := "li1", title := "Bad Item", quantity := some 1 } ]

/-- A stored tracking row linked to a host order, used in the ownership
gate instances. -/
def trackEx : TrackingRecord :=
  { id := 1, awb := "AWB9", medusa_order_id := some "order_1",
    current_status := SVal.str "Shipped" }

/-! ## Helper lemmas on the upsert -/

/-- The record an upsert returns always carries the supplied
`current_status` (it is required and listed among the mutable fields). -/
theorem upsert_current_status (store : List TrackingRecord) (d : UpsertData) :
    (upsertByAwb store d).1.current_status = d.current_status := by
  unfold upsertByAwb
  rcases h : store.find? (fun r => r.awb == d.awb) with _ | r <;>
    simp [h, createRecord, updateRecord]

/-! ## Claim C1: status normalization on push and pull paths -/

/-- C1 counterexample: a tracking status update processed by the push
(webhook) path whose `current_status` field carries the numeric status
code 7 is stored verbatim as the number 7, not as the label
"Delivered" — the code-to-label table exists only in the pull route. -/
theorem c1_counterexample :
    (upsertByAwb [] (webhookUpsertData ⟨"AWB1", .num 7, none⟩)).1.current_status
        = SVal.num 7 ∧
      SVal.num 7 ≠ SVal.str "Delivered" := by
  decide

/-- C1 amended: the fixed code-to-label table is applied before storage
on the pull path only, for both the current-status and the
shipment-status field (in particular numeric 7 becomes "Delivered"
there); the push path hands both status fields to the upsert exactly as
they arrived. -/
theorem c1_amended (c : Int) (hc : c ∈ statusCodes)
    (td ss : PullTrackingData) (ht : td.current_status = some (.num c))
    (hs : ss.shipment_status = some (.num c))
    (p : WebhookPayload) (store : List TrackingRecord) :
    pullCurrentStatus td = .str (statusLabel c) ∧
    pullShipmentStatus ss = some (.str (statusLabel c)) ∧
    (upsertByAwb store (webhookUpsertData p)).1.current_status = p.current_status := by
  refine ⟨?_, ?_, ?_⟩
  · simp only [statusCodes] at hc
    fin_cases hc <;>
      simp [pullCurrentStatus, jsOrStatus, jsTruthy, SVal.truthy, ht, statusLabel,
        statusMapLookup, SVal.jsKey] <;> decide
  · simp only [statusCodes] at hc
    fin_cases hc <;>
      simp [pullShipmentStatus, jsTruthy, SVal.truthy, hs, statusLabel,
        statusMapLookup, SVal.jsKey] <;> decide
  · exact upsert_current_status store (webhookUpsertData p)

/-- C1 witness: the amended statement at code 7 on both paths. -/
theorem c1_witness :
    pullCurrentStatus ⟨some (.num 7), none, none⟩ = .str (statusLabel 7) ∧
    pullShipmentStatus ⟨none, none, some (.num 7)⟩ = some (.str (statusLabel 7)) ∧
    (upsertByAwb [] (webhookUpsertData ⟨"AWB1", .num 7, none⟩)).1.current_status
      = SVal.num 7 := by
  have h := c1_amended 7 (by decide) ⟨some (.num 7), none, none⟩
    ⟨none, none, some (.num 7)⟩ rfl rfl ⟨"AWB1", .num 7, none⟩ []
  exact ⟨h.1, h.2.1, h.2.2⟩

/-! ## Claim C2: upsert merge semantics -/

/-- Merge of an orElse against the claim-side merge predicate. -/
theorem mergesTo_orElse {α : Type} (dv rv : Option α) :
    mergesTo dv rv (dv.orElse fun _ => rv) := by
  cases dv <;> simp [mergesTo]

/-- C2 counterexample: on an update of an existing record a supplied
`courier_name` is NOT overwritten — only the fixed mutable-field list
(statuses, timestamps, scans, pod, raw payload) participates in the
update, so the stored courier name survives a supplied new value. -/
theorem c2_counterexample :
    (upsertByAwb
        [{ id := 1, awb := "A1", courier_name := some "Xpress",
           current_status := SVal.str "In Transit" }]
        { awb := "A1", courier_name := some "Other",
          current_status := SVal.str "Shipped" }).1.courier_name = some "Xpress" ∧
      (some "Xpress" : Option String) ≠ some "Other" := by
  decide

/-- C2 amended: if no record with the waybill exists, one is created from
the full supplied data.  If a record exists, the supplied
`current_status` and every supplied field of the mutable-field list
(status ids, shipment status, timestamps, scans, pod fields, raw
payload) overwrite the stored values, every absent (undefined) field
keeps its stored value — and the identity and linkage fields (order ids,
courier name, fulfillment id, return flag, channel id) keep their stored
values even when the update supplies them. -/
theorem c2_amended (store : List TrackingRecord) (d : UpsertData) :
    (store.find? (fun x => x.awb == d.awb) = none →
      (upsertByAwb store d).1 = createRecord (store.length + 1) d) ∧
    ∀ r, store.find? (fun x => x.awb == d.awb) = some r →
      (upsertByAwb store d).1.id = r.id ∧
      (upsertByAwb store d).1.awb = r.awb ∧
      (upsertByAwb store d).1.order_id = r.order_id ∧
      (upsertByAwb store d).1.medusa_order_id = r.medusa_order_id ∧
      (upsertByAwb store d).1.sr_order_id = r.sr_order_id ∧
      (upsertByAwb store d).1.medusa_fulfillment_id = r.medusa_fulfillment_id ∧
      (upsertByAwb store d).1.courier_name = r.courier_name ∧
      (upsertByAwb store d).1.is_return = r.is_return ∧
      (upsertByAwb store d).1.channel_id = r.channel_id ∧
      (upsertByAwb store d).1.current_status = d.current_status ∧
      mergesTo d.current_status_id r.current_status_id
        (upsertByAwb store d).1.current_status_id ∧
      mergesTo d.shipment_status r.shipment_status
        (upsertByAwb store d).1.shipment_status ∧
      mergesTo d.shipment_status_id r.shipment_status_id
        (upsertByAwb store d).1.shipment_status_id ∧
      mergesTo d.current_timestamp r.current_timestamp
        (upsertByAwb store d).1.current_timestamp ∧
      mergesTo d.etd r.etd (upsertByAwb store d).1.etd ∧
      mergesTo d.awb_assigned_date r.awb_assigned_date
        (upsertByAwb store d).1.awb_assigned_date ∧
      mergesTo d.pickup_scheduled_date r.pickup_scheduled_date
        (upsertByAwb store d).1.pickup_scheduled_date ∧
      mergesTo d.scans r.scans (upsertByAwb store d).1.scans ∧
      mergesTo d.pod_status r.pod_status (upsertByAwb store d).1.pod_status ∧
      mergesTo d.pod r.pod (upsertByAwb store d).1.pod ∧
      mergesTo d.raw_payload r.raw_payload (upsertByAwb store d).1.raw_payload := by
  constructor
  · intro h
    simp [upsertByAwb, h]
  · intro r h
    have hu : (upsertByAwb store d).1 = updateRecord r d := by
      simp [upsertByAwb, h]
    rw [hu]
    refine ⟨rfl, rfl, rfl, rfl, rfl, rfl, rfl, rfl, rfl, rfl, ?_, ?_, ?_, ?_, ?_,
      ?_, ?_, ?_, ?_, ?_, ?_⟩ <;>
      exact mergesTo_orElse _ _

/-- C2 witness: the spec example — an existing record with one scan,
updated with only a new current status, keeps the scan and takes the
status; the amended theorem applied to that store. -/
theorem c2_witness :
    (upsertByAwb
        [{ id := 1, awb := "A1", current_status := SVal.str "In Transit",
           scans := some [⟨"2024-01-01", "In Transit", "picked", "DEL"⟩] }]
        { awb := "A1", current_status := SVal.str "Delivered" }).1.scans
        = some [⟨"2024-01-01", "In Transit", "picked", "DEL"⟩] ∧
      (upsertByAwb
        [{ id := 1, awb := "A1", current_status := SVal.str "In Transit",
           scans := some [⟨"2024-01-01", "In Transit", "picked", "DEL"⟩] }]
        { awb := "A1", current_status := SVal.str "Delivered" }).1.current_status
        = SVal.str "Delivered" := by
  have h := (c2_amended
    [{ id := 1, awb := "A1", current_status := SVal.str "In Transit",
       scans := some [⟨"2024-01-01", "In Transit", "picked", "DEL"⟩] }]
    { awb := "A1", current_status := SVal.str "Delivered" }).2
    { id := 1, awb := "A1", current_status := SVal.str "In Transit",
      scans := some [⟨"2024-01-01", "In Transit", "picked", "DEL"⟩] }
    (by decide)
  exact ⟨(h.2.2.2.2.2.2.2.2.2.2.2.2.2.2.2.2.2.1).1 rfl, h.2.2.2.2.2.2.2.2.2.1⟩

/-! ## Claim C3: courier selection policy -/

/-- Head of a stable insertion. -/
theorem head?_insertSorted {α κ : Type} [LinearOrder κ] (key : α → κ) (x : α)
    (l : List α) :
    (insertSorted key x l).head? = some (match l.head? with
      | none => x
      | some y => if key x ≤ key y then x else y) := by
  cases l with
  | nil => rfl
  | cons y ys =>
    by_cases h : key x ≤ key y <;> simp [insertSorted, h]

/-- The head of the stable sort is the first element with minimal key. -/
theorem head?_sortByKey {α κ : Type} [LinearOrder κ] (key : α → κ) (l : List α) :
    (sortByKey key l).head? = firstMinBy key l := by
  induction l with
  | nil => rfl
  | cons x xs ih =>
    rw [sortByKey, head?_insertSorted, ih, firstMinBy]
    cases firstMinBy key xs with
    | none => rfl
    | some y =>
      by_cases h : key x ≤ key y
      · simp [h, not_lt.mpr h]
      · simp [h, not_le.mp h]

/-- A nonempty list always has a first minimum. -/
theorem firstMinBy_cons_isSome {α κ : Type} [LinearOrder κ] (key : α → κ)
    (a : α) (l : List α) : (firstMinBy key (a :: l)).isSome := by
  rw [firstMinBy]
  cases firstMinBy key l with
  | none => rfl
  | some y => by_cases h : key y < key a <;> simp [h]

/-- The first minimum is a member and its key is minimal. -/
theorem firstMinBy_mem_le {α κ : Type} [LinearOrder κ] (key : α → κ)
    (l : List α) (c : α) (h : firstMinBy key l = some c) :
    c ∈ l ∧ ∀ x ∈ l, key c ≤ key x := by
  induction l generalizing c with
  | nil => cases h
  | cons a as ih =>
    rw [firstMinBy] at h
    rcases hf : firstMinBy key as with _ | y
    · rw [hf] at h
      have hac : a = c := by simpa using h
      subst hac
      cases as with
      | nil => simp
      | cons b bs =>
        have hs := firstMinBy_cons_isSome key b bs
        rw [hf] at hs
        cases hs
    · simp only [hf] at h
      by_cases hlt : key y < key a
      · rw [if_pos hlt] at h
        have hyc : y = c := by simpa using h
        subst hyc
        obtain ⟨hmem, hle⟩ := ih y hf
        refine ⟨List.mem_cons_of_mem _ hmem, ?_⟩
        intro x hx
        rcases List.mem_cons.mp hx with hxa | hxs
        · subst hxa; exact le_of_lt hlt
        · exact hle x hxs
      · rw [if_neg hlt] at h
        have hac : a = c := by simpa using h
        subst hac
        obtain ⟨hmem, hle⟩ := ih y hf
        refine ⟨List.mem_cons_self _ _, ?_⟩
        intro x hx
        rcases List.mem_cons.mp hx with hxa | hxs
        · subst hxa; exact le_refl _
        · exact le_trans (not_lt.mp hlt) (hle x hxs)

/-- C3 counterexample: under the fastest preference, a courier with the
unparsable estimated-delivery-days value "unknown" (sentinel 99) is
selected over a courier with the parsable value "100" — an unparsable
value does not sort after every parsable one. -/
theorem c3_counterexample :
    selectCourier .FAST unparsableCouriers = some (mkCourier "B" 2 "unknown" 10) ∧
    parseIntJS "unknown" = none ∧
    parseIntJS "100" = some 100 ∧
    mkCourier "B" 2 "unknown" 10 ≠ mkCourier "A" 1 "100" 10 := by
  decide

/-- C3 amended: selection is the first element of the stable ascending
sort — under "cheapest" a courier with minimal numeric rate, under
"fastest" a courier with minimal sentinel key, where an unparsable or
zero estimated-delivery-days value is assigned the sentinel 99 (so it
sorts after parsable values below 99 but not after larger ones); ties
are broken by input order (first wins). -/
theorem c3_amended (pref : DeliveryPreference) (cs : List Courier) (hne : cs ≠ []) :
    selectCourier .CHEAP cs = firstMinBy (fun c => c.rate) cs ∧
    selectCourier .FAST cs = firstMinBy fastKey cs ∧
    (∀ c, (parseIntJS c.estimated_delivery_days = none ∨
        parseIntJS c.estimated_delivery_days = some 0) → fastKey c = 99) ∧
    ∃ c, selectCourier pref cs = some c ∧ c ∈ cs ∧
      ∀ x ∈ cs, (match pref with
        | .CHEAP => c.rate ≤ x.rate
        | .FAST => fastKey c ≤ fastKey x) := by
  have hcheap : selectCourier .CHEAP cs = firstMinBy (fun c => c.rate) cs := by
    simp [selectCourier, head?_sortByKey]
  have hfast : selectCourier .FAST cs = firstMinBy fastKey cs := by
    simp [selectCourier, head?_sortByKey]
  refine ⟨hcheap, hfast, ?_, ?_⟩
  · intro c hc
    rcases hc with h | h <;> simp [fastKey, h]
  · rcases cs with _ | ⟨a, as⟩
    · exact absurd rfl hne
    · cases pref
      · rcases hsome : firstMinBy fastKey (a :: as) with _ | c
        · have hs := firstMinBy_cons_isSome fastKey a as
          rw [hsome] at hs
          cases hs
        · obtain ⟨hmem, hle⟩ := firstMinBy_mem_le fastKey (a :: as) c hsome
          exact ⟨c, by rw [hfast, hsome], hmem, fun x hx => hle x hx⟩
      · rcases hsome : firstMinBy (fun c => c.rate) (a :: as) with _ | c
        · have hs := firstMinBy_cons_isSome (fun c : Courier => c.rate) a as
          rw [hsome] at hs
          cases hs
        · obtain ⟨hmem, hle⟩ := firstMinBy_mem_le (fun c : Courier => c.rate) (a :: as) c hsome
          exact ⟨c, by rw [hcheap, hsome], hmem, fun x hx => hle x hx⟩

/-- C3 witness: the spec examples — rates 50, 30, 40 under cheapest give
a minimal-rate courier; days 3, 1, 2 under fastest give a minimal-days
courier. -/
theorem c3_witness :
    (∃ c, selectCourier .CHEAP cheapCouriers = some c ∧ c ∈ cheapCouriers ∧
      ∀ x ∈ cheapCouriers, c.rate ≤ x.rate) ∧
    ∃ c, selectCourier .FAST fastCouriers = some c ∧ c ∈ fastCouriers ∧
      ∀ x ∈ fastCouriers, fastKey c ≤ fastKey x := by
  constructor
  · obtain ⟨-, -, -, h⟩ := c3_amended .CHEAP cheapCouriers (by decide)
    exact h
  · obtain ⟨-, -, -, h⟩ := c3_amended .FAST fastCouriers (by decide)
    exact h

example : selectCourier .CHEAP cheapCouriers = some (mkCourier "B" 2 "3" 30) := by decide
example : selectCourier .FAST fastCouriers = some (mkCourier "B" 2 "1" 10) := by decide

/-! ## Claim C4: estimate cache TTL behavior -/

set_option maxRecDepth 40000 in
/-- C4 counterexample: with the cache at full capacity, the eviction step
runs before the lookup and removes the oldest-inserted key — here exactly
the key being queried — so a repeat call within the TTL window (time 0,
entry valid until 1000000) still issues a network call. -/
theorem c4_counterexample :
    lookupCache fullCache (requestKey fullReq) = some fullEntry ∧
    (0 : Nat) < fullEntry.expiresAt ∧
    fullCache.length = maxCacheSize ∧
    (getDeliveryEstimate .FAST (fun _ => []) 0 ⟨fullCache⟩ fullReq).2.2 = true := by
  decide

/-- C4 amended: provided the cache holds fewer than `maxCacheSize`
entries, a repeat call for a cached key within the TTL window returns
the cached result, leaves the cache unchanged and issues no network
call; once the TTL has elapsed the call issues a network request.  (At
full capacity the pre-lookup eviction can first delete the queried key
when it is the oldest entry.) -/
theorem c4_amended (pref : DeliveryPreference) (net : CacheKey → List Courier)
    (now : Nat) (st : EstState) (req : EstRequest) (e : CacheEntry)
    (hlen : st.cache.length < maxCacheSize)
    (hfind : lookupCache st.cache (requestKey req) = some e) :
    (now < e.expiresAt →
      getDeliveryEstimate pref net now st req = (e.response, st, false)) ∧
    (e.expiresAt ≤ now →
      (getDeliveryEstimate pref net now st req).2.2 = true) := by
  have hev : evictIfFull st.cache = st.cache := by
    simp [evictIfFull, Nat.not_le.mpr hlen]
  constructor
  · intro httl
    simp [getDeliveryEstimate, hev, hfind, httl]
  · intro httl
    simp [getDeliveryEstimate, hev, hfind, Nat.not_lt.mpr httl,
      getDeliveryEstimate.getDeliveryEstimateNet]

/-- C4 witness: a one-entry cache — a repeat call at time 0 is served
from the cache with no network call; a call at time 2000000 (TTL over)
issues one. -/
theorem c4_witness :
    getDeliveryEstimate .FAST (fun _ => []) 0
        ⟨[(fullKey "9", fullEntry)]⟩ ⟨"110001", "9", some 1, some 0⟩
      = (fullEntry.response, ⟨[(fullKey "9", fullEntry)]⟩, false) ∧
    (getDeliveryEstimate .FAST (fun _ => []) 2000000
        ⟨[(fullKey "9", fullEntry)]⟩ ⟨"110001", "9", some 1, some 0⟩).2.2 = true := by
  constructor
  · exact (c4_amended .FAST (fun _ => []) 0 ⟨[(fullKey "9", fullEntry)]⟩
      ⟨"110001", "9", some 1, some 0⟩ fullEntry (by decide) (by decide)).1 (by decide)
  · exact (c4_amended .FAST (fun _ => []) 2000000 ⟨[(fullKey "9", fullEntry)]⟩
      ⟨"110001", "9", some 1, some 0⟩ fullEntry (by decide) (by decide)).2 (by decide)

/-! ## Claims C5 and C6: item-loop validation and payload aggregates -/

/-- A list is a prefix of itself extended on the right. -/
theorem charsPrefixOf_append (n r : List Char) : charsPrefixOf n (n ++ r) = true := by
  induction n with
  | nil => rfl
  | cons a as ih => simp [charsPrefixOf, ih]

/-- A list occurs as an infix wherever it appears between two others. -/
theorem charsInfixOf_append (pre n r : List Char) :
    charsInfixOf n (pre ++ n ++ r) = true := by
  induction pre with
  | nil =>
    rcases hn : n ++ r with _ | ⟨b, bs⟩
    · rcases List.append_eq_nil.mp hn with ⟨rfl, rfl⟩
      rfl
    · simpa [charsInfixOf, hn] using Or.inl (hn ▸ charsPrefixOf_append n r)
  | cons c cs ih =>
    simp [charsInfixOf]
    right
    simpa using ih

/-- Any string contains a middle piece of itself. -/
theorem strContains_middle (a t b : String) : strContains (a ++ t ++ b) t = true := by
  have h := charsInfixOf_append a.toList t.toList b.toList
  simpa [strContains, String.toList] using h

/-- A bad item makes the loop step fail with the item-naming message,
whatever the accumulator is. -/
theorem processItem_error (oitems : List OrderItem) (agg : Agg) (it : FulItem)
    (h : badItem oitems it = true) :
    processItem oitems agg it = .error (itemErrorMsg oitems it) := by
  rcases hl : lookupOrderItem oitems it.line_item_id with _ | oi
  · simp [processItem, itemErrorMsg, hl]
  · rcases hv : oi.variant with _ | v
    · simp [processItem, itemErrorMsg, hl, hv]
    · simp only [badItem, hl, hv] at h
      have hcond : variantWeightGrams v / 1000 = 0 ∨ variantLength v = 0 ∨
          variantBreadth v = 0 ∨ variantHeight v = 0 := by
        simp only [Bool.or_eq_true, decide_eq_true_eq] at h
        tauto
      simp only [processItem, itemErrorMsg, hl, hv]
      rw [if_pos hcond]

/-- A good item makes the loop step succeed, accumulating its resolved
kilograms, dimensions and quantity. -/
theorem processItem_ok (oitems : List OrderItem) (agg : Agg) (it : FulItem)
    (h : badItem oitems it = false) :
    processItem oitems agg it = .ok
      { weight := agg.weight + itemKg oitems it * (jsQty it : Rat)
        length := max agg.length (itemLen oitems it)
        breadth := max agg.breadth (itemBre oitems it)
        height := agg.height + itemHt oitems it * (jsQty it : Rat) } := by
  rcases hl : lookupOrderItem oitems it.line_item_id with _ | oi
  · simp only [badItem, hl] at h
    exact Bool.noConfusion h
  · rcases hv : oi.variant with _ | v
    · simp only [badItem, hl, hv] at h
      exact Bool.noConfusion h
    · simp only [badItem, hl, hv] at h
      have hcond : ¬(variantWeightGrams v / 1000 = 0 ∨ variantLength v = 0 ∨
          variantBreadth v = 0 ∨ variantHeight v = 0) := by
        simp only [Bool.or_eq_false_iff, decide_eq_false_iff_not] at h
        tauto
      simp only [processItem, hl, hv]
      rw [if_neg hcond]
      simp only [itemKg, itemLen, itemBre, itemHt, hl, hv]

/-- When some item of the list is bad, the whole loop fails with the
message naming the first such item, independently of the accumulator. -/
theorem aggregateItems_error (oitems : List OrderItem) (items : List FulItem)
    (h : ∃ it ∈ items, badItem oitems it = true) :
    ∃ it ∈ items, badItem oitems it = true ∧
      ∀ agg, aggregateItems oitems agg items = .error (itemErrorMsg oitems it) := by
  induction items with
  | nil =>
    rcases h with ⟨it, hmem, -⟩
    cases hmem
  | cons a rest ih =>
    rcases hb : badItem oitems a with _ | _
    · rcases h with ⟨it, hmem, hbad⟩
      rcases List.mem_cons.mp hmem with rfl | hrest
      · rw [hb] at hbad
        cases hbad
      · obtain ⟨it2, hm2, hb2, hagg⟩ := ih ⟨it, hrest, hbad⟩
        refine ⟨it2, List.mem_cons_of_mem _ hm2, hb2, fun agg => ?_⟩
        rw [aggregateItems, processItem_ok oitems agg a hb]
        exact hagg _
    · refine ⟨a, List.mem_cons_self _ _, hb, fun agg => ?_⟩
      rw [aggregateItems, processItem_error oitems agg a hb]

/-- C5: if any fulfillment item has no matching order line, no variant
data, or a missing or zero resolved weight, length, width or height,
`create` fails with a validation error whose message names an offending
item by title, and it issues zero outbound network calls. -/
theorem c5_validation (oitems : List OrderItem) (items : List FulItem)
    (addrCheck : Except String Unit)
    (h : ∃ it ∈ items, badItem oitems it = true) :
    ∃ it ∈ items, badItem oitems it = true ∧
      (createRun oitems items addrCheck).1 = .error (itemErrorMsg oitems it) ∧
      strContains (itemErrorMsg oitems it) it.title = true ∧
      (createRun oitems items addrCheck).2 = 0 := by
  obtain ⟨it, hmem, hbad, hagg⟩ := aggregateItems_error oitems items h
  refine ⟨it, hmem, hbad, ?_, ?_, ?_⟩
  · rw [createRun, hagg ⟨0, 0, 0, 0⟩]
  · rcases hl : lookupOrderItem oitems it.line_item_id with _ | oi
    · simp only [itemErrorMsg, hl]
      simpa using strContains_middle "Order item not found for fulfillment item: " it.title ""
    · rcases hv : oi.variant with _ | v
      · simp only [itemErrorMsg, hl, hv]
        simpa using strContains_middle "Variant data missing for item: " it.title ""
      · simp only [itemErrorMsg, hl, hv]
        exact strContains_middle "Missing dimensions/weight for \x22" it.title
          "\x22. Please set them on the Variant."
  · rw [createRun, hagg ⟨0, 0, 0, 0⟩]

/-- C5 witness: an item whose variant has weight, length and width but no
height fails with a message naming it, making no network call. -/
theorem c5_witness :
    ∃ it ∈ itemsBadEx, badItem oitemsBadEx it = true ∧
      (createRun oitemsBadEx itemsBadEx (.ok ())).1 = .error (itemErrorMsg oitemsBadEx it) ∧
      strContains (itemErrorMsg oitemsBadEx it) it.title = true ∧
      (createRun oitemsBadEx itemsBadEx (.ok ())).2 = 0 :=
  c5_validation oitemsBadEx itemsBadEx (.ok ()) (by decide)

/-- The loop totals are the fold of the per-item resolved data over the
accumulator. -/
theorem aggregateItems_ok (oitems : List OrderItem) (items : List FulItem)
    (agg out : Agg) (h : aggregateItems oitems agg items = .ok out) :
    out.weight = agg.weight +
        (items.map (fun it => itemKg oitems it * (jsQty it : Rat))).sum ∧
    out.length = (items.map (itemLen oitems)).foldl max agg.length ∧
    out.breadth = (items.map (itemBre oitems)).foldl max agg.breadth ∧
    out.height = agg.height +
        (items.map (fun it => itemHt oitems it * (jsQty it : Rat))).sum := by
  induction items generalizing agg with
  | nil =>
    rw [aggregateItems] at h
    injection h with h
    subst h
    simp
  | cons a rest ih =>
    rw [aggregateItems] at h
    have hb : badItem oitems a = false := by
      rcases hbb : badItem oitems a with _ | _
      · rfl
      · rw [processItem_error oitems agg a hbb] at h
        cases h
    rw [processItem_ok oitems agg a hb] at h
    obtain ⟨h1, h2, h3, h4⟩ := ih _ h
    refine ⟨?_, ?_, ?_, ?_⟩
    · simp only [h1, List.map_cons, List.sum_cons]
      ring
    · simpa [List.foldl_cons] using h2
    · simpa [List.foldl_cons] using h3
    · simp only [h4, List.map_cons, List.sum_cons]
      ring

/-- C6: a `create` call that passes validation builds the carrier payload
with weight the quantity-weighted sum of item weights in kilograms
(grams divided by 1000), length and breadth the per-item maxima (taken
from 0), and height the quantity-weighted sum of item heights. -/
theorem c6_aggregates (oitems : List OrderItem) (items : List FulItem)
    (addrCheck : Except String Unit) (dims : PayloadDims) (n : Nat)
    (h : createRun oitems items addrCheck = (.ok dims, n)) :
    dims.weight = (items.map (fun it => itemKg oitems it * (jsQty it : Rat))).sum ∧
    dims.length = (items.map (itemLen oitems)).foldl max 0 ∧
    dims.breadth = (items.map (itemBre oitems)).foldl max 0 ∧
    dims.height = (items.map (fun it => itemHt oitems it * (jsQty it : Rat))).sum := by
  rw [createRun] at h
  rcases hagg : aggregateItems oitems ⟨0, 0, 0, 0⟩ items with e | agg
  · rw [hagg] at h
    cases h
  · rw [hagg] at h
    rcases addrCheck with e | u
    · simp at h
    · simp only [Prod.mk.injEq, Except.ok.injEq] at h
      obtain ⟨hdims, -⟩ := h
      subst hdims
      obtain ⟨h1, h2, h3, h4⟩ := aggregateItems_ok oitems items ⟨0, 0, 0, 0⟩ agg hagg
      exact ⟨by simpa using h1, by simpa using h2, by simpa using h3, by simpa using h4⟩

/-- C6 witness: the spec example — 200g qty 1 and 300g qty 2 aggregate to
0.8 kg, length and breadth the maxima 20 and 8, height 4 + 3·2 = 10. -/
theorem c6_witness :
    (createRun oitemsEx itemsEx (.ok ())).1 = .ok ⟨20, 8, 10, 4/5⟩ ∧
    ((4 : Rat)/5) = (itemsEx.map (fun it => itemKg oitemsEx it * (jsQty it : Rat))).sum := by
  refine ⟨by rfl, ?_⟩
  have h := c6_aggregates oitemsEx itemsEx (.ok ()) ⟨20, 8, 10, 4/5⟩ 1 (by rfl)
  exact h.1

/-! ## Claim C7: idempotent cancellation -/

/-- C7 counterexample: a carrier rejection indicating "cannot cancel"
with HTTP status 422 is propagated as a typed error, not success — the
"cannot cancel" exemption only applies at status 400 (the `&&` binds
tighter than the `||` chain). -/
theorem c7_counterexample :
    strContains (strToLower "Cannot cancel order in processing") "cannot cancel" = true ∧
    cancel (some ⟨422, "Cannot cancel order in processing"⟩) =
      .failure MedErrType.INVALID_DATA := by
  decide

/-- C7 amended: a rejection whose body says "already cancelled" (either
spelling) is success at any status; a rejection saying "cannot cancel"
is success only when its status is 400; every other rejection is
propagated as the typed error of the translator. -/
theorem c7_amended (e : CancelRejection) :
    cancel none = .success ∧
    ((strContains (strToLower e.body) "already cancelled" = true ∨
      strContains (strToLower e.body) "already canceled" = true) →
      cancel (some e) = .success) ∧
    (e.status = 400 → strContains (strToLower e.body) "cannot cancel" = true →
      cancel (some e) = .success) ∧
    (strContains (strToLower e.body) "already cancelled" = false →
      strContains (strToLower e.body) "already canceled" = false →
      (e.status = 400 → strContains (strToLower e.body) "cannot cancel" = false) →
      cancel (some e) = .failure (handleErrorType e.status)) := by
  refine ⟨rfl, ?_, ?_, ?_⟩
  · intro h
    rcases h with h | h <;> simp [cancel, h]
  · intro hs hm
    simp [cancel, hs, hm]
  · intro h1 h2 h3
    by_cases hs : e.status = 400
    · simp [cancel, h1, h2, beq_iff_eq, hs, h3 hs]
    · simp [cancel, h1, h2, beq_iff_eq, hs]

/-- C7 witness: the amended statement at an already-cancelled rejection
with status 500, a cannot-cancel rejection with status 400, and a plain
not-found rejection. -/
theorem c7_witness :
    cancel (some ⟨500, "Order already cancelled"⟩) = .success ∧
    cancel (some ⟨400, "You cannot cancel this order"⟩) = .success ∧
    cancel (some ⟨404, "No such order"⟩) = .failure MedErrType.NOT_FOUND := by
  refine ⟨?_, ?_, ?_⟩
  · exact (c7_amended ⟨500, "Order already cancelled"⟩).2.1 (Or.inl (by decide))
  · exact (c7_amended ⟨400, "You cannot cancel this order"⟩).2.2.1 rfl (by decide)
  · exact (c7_amended ⟨404, "No such order"⟩).2.2.2 (by decide) (by decide)
      (fun h => absurd h (by decide))

/-! ## Claim C8: token refresh coalescing -/

/-- C8: in every reachable manager state at most one login network call
is in flight — a refresh can only start while no shared refresh handle
exists, and any caller that observes a handle awaits that same
operation. -/
theorem c8_coalescing (s : TokenSys) (h : TokenReachable s) :
    s.loginInFlight ≤ 1 := by
  suffices hinv : tokenInv s by
    rw [tokenInv] at hinv
    rw [hinv]
    split <;> omega
  induction h with
  | refl => rfl
  | tail hab hbc ih =>
    cases hbc with
    | start hb =>
      simp [tokenInv, hb] at ih ⊢
      omega
    | settle hb =>
      simp [tokenInv, hb] at ih ⊢
      omega
    | clear hb =>
      simp [tokenInv, hb] at ih ⊢
      omega
    | observe hb =>
      exact ih

/-- C8 witness: the state reached by one caller starting a refresh from
the initial state has exactly one login in flight. -/
theorem c8_witness : TokenSys.loginInFlight ⟨some RefreshHandle.running, 1⟩ ≤ 1 :=
  c8_coalescing ⟨some RefreshHandle.running, 1⟩
    (Relation.ReflTransGen.single (TokenStep.start TokenSys.init rfl))

/-! ## Claim C9: public tracking ownership gate -/

/-- C9 counterexample: a verification error whose message contains
"not found" does not deny access — the handler falls through and returns
the tracking data with status 200. -/
theorem c9_counterexample :
    trackingGET (some trackEx) (fun _ => .failed "Order order_1 was not found") none
      = .payload trackEx ∧
    TrackResponse.payload trackEx ≠ .denied := by
  decide

/-- C9 amended: for a record linked to an order, a verification error
denies access unless its message contains "not found" (then the data is
returned as if unlinked); a confirmed foreign customer denies; a
matching or absent customer returns the data. -/
theorem c9_amended (t : TrackingRecord) (verify : String → VerifyOutcome)
    (actorId : Option String) (oid : String) (hoid : t.medusa_order_id = some oid) :
    (∀ msg, verify oid = .failed msg → strContains (strToLower msg) "not found" = false →
      trackingGET (some t) verify actorId = .denied) ∧
    (∀ c, verify oid = .result (some c) → actorId ≠ some c →
      trackingGET (some t) verify actorId = .denied) ∧
    (∀ msg, verify oid = .failed msg → strContains (strToLower msg) "not found" = true →
      trackingGET (some t) verify actorId = .payload t) ∧
    (∀ c, verify oid = .result (some c) → actorId = some c →
      trackingGET (some t) verify actorId = .payload t) ∧
    (verify oid = .result none → trackingGET (some t) verify actorId = .payload t) := by
  refine ⟨?_, ?_, ?_, ?_, ?_⟩
  · intro msg hv hc
    simp [trackingGET, hoid, hv, hc]
  · intro c hv hne
    simp [trackingGET, hoid, hv, hne]
  · intro msg hv hc
    simp [trackingGET, hoid, hv, hc]
  · intro c hv heq
    simp [trackingGET, hoid, hv, heq]
  · intro hv
    simp [trackingGET, hoid, hv]

/-- C9 witness: a system error ("Database timeout") during verification
denies access for a linked record. -/
theorem c9_witness :
    trackingGET (some trackEx) (fun _ => .failed "Database timeout") none = .denied :=
  (c9_amended trackEx (fun _ => .failed "Database timeout") none "order_1" rfl).1
    "Database timeout" rfl (by decide)

/-! ## Claim C10: estimate parameter defaulting -/

/-- C10: an absent or zero weight defaults to 0.5 and an absent COD flag
to 0 before the cache key is formed, so a call omitting them, a call
passing weight 0 and a call passing weight 0.5 with cod 0 all address
the same cache entry and behave identically. -/
theorem c10_defaults (pref : DeliveryPreference) (net : CacheKey → List Courier)
    (now : Nat) (st : EstState) (p d : String) :
    requestKey ⟨p, d, none, none⟩ = requestKey ⟨p, d, some 0.5, some 0⟩ ∧
    requestKey ⟨p, d, some 0, none⟩ = requestKey ⟨p, d, some 0.5, some 0⟩ ∧
    getDeliveryEstimate pref net now st ⟨p, d, none, none⟩ =
      getDeliveryEstimate pref net now st ⟨p, d, some 0.5, some 0⟩ ∧
    getDeliveryEstimate pref net now st ⟨p, d, some 0, none⟩ =
      getDeliveryEstimate pref net now st ⟨p, d, some 0.5, some 0⟩ := by
  have h1 : requestKey ⟨p, d, none, none⟩ = requestKey ⟨p, d, some 0.5, some 0⟩ := by
    norm_num [requestKey, defaultWeight, defaultCod]
  have h2 : requestKey ⟨p, d, some 0, none⟩ = requestKey ⟨p, d, some 0.5, some 0⟩ := by
    norm_num [requestKey, defaultWeight, defaultCod]
  refine ⟨h1, ?_, ?_, ?_⟩
  · simpa using h2
  · simp only [getDeliveryEstimate, h1]
  · simp only [getDeliveryEstimate, h2]

end Shiprocket
